import Mathlib

/-!
Shallow embedding of the wavmio host-I/O bridge
(`src/arbitrator/jit/src/wavmio.rs`) of the jit validator.

Machine integers are modelled as `Nat` with explicit truncation (`% 2 ^ 32`
for `as u32` casts, `u32::try_from` as a `< 2 ^ 32` test).  Fallible host
calls return `Except Escape`; guest-memory and stack writes performed by a
call are recorded as an explicit ordered list of `Effect`s rather than
mutating a memory, and the (possibly bootstrap-mutated) session state is
returned alongside them.  The ambient I/O consumed by the bootstrap
protocol (stdin lines, fork outcomes, the controller socket) is passed in
explicitly as a `BootIn` value.
-/

/-- Result of `libc::fork()` as observed by the calling process: failure
(-1), the child branch (0), or the parent branch (a positive pid). -/
inductive ForkRes where
  | fail
  | child
  | parent
deriving DecidableEq, Repr

/-- One observable outcome of `stdin.read_line`: a successfully read line
followed by the outcome of the `fork` that the loop then performs, or a
read error carrying its message.  End of the event list models
end-of-stream (the reader yields `ErrorKind::UnexpectedEof`). -/
inductive StdinEvent where
  | line (s : String) (fr : ForkRes)
  | readErr (msg : String)
deriving DecidableEq, Repr

/-- One framed item readable from the controller socket via the `socket`
module's primitives (`read_u64`, `read_u8`, `read_bytes32`, `read_bytes`),
which the spec treats as an out-of-scope byte-oriented utility. -/
inductive WireItem where
  | w8 (v : Nat)
  | w64 (v : Nat)
  | wbytes32 (b : List Nat)
  | wbytes (b : List Nat)
deriving DecidableEq, Repr

/-- The ambient input consumed by one `ready_hostio` bootstrap attempt. -/
structure BootIn where
  stdin : List StdinEvent
  /-- `some e` models `TcpStream::connect` failing with error text `e`. -/
  connectErr : Option String
  socket : List WireItem
deriving DecidableEq, Repr

/-- The `Escape` error type: `exit` is a clean process exit with a status
code, `hostio` a fatal host-I/O failure with a diagnostic string. -/
inductive Escape where
  | exit (code : Nat)
  | hostio (msg : String)
deriving DecidableEq, Repr

/-- A byte sequence (each entry a byte value). -/
abbrev Msg := List Nat

/-- A 32-byte word, modelled as its byte list. -/
abbrev Bytes32 := List Nat

/-- An inbox: a finite map from u64 message index to message bytes,
modelled as an association list with unique keys. -/
abbrev Inbox := List (Nat × Msg)

/-- Map lookup (`HashMap::get`). -/
def inboxGet (m : Inbox) (k : Nat) : Option Msg :=
  (m.find? (fun p => p.1 == k)).map (fun p => p.2)

/-- Map insertion (`HashMap::insert`): the new binding shadows and removes
any previous binding of the same key. -/
def inboxInsert (m : Inbox) (k : Nat) (v : Msg) : Inbox :=
  (k, v) :: m.filter (fun p => p.1 != k)

/-- The preimage oracle map from 32-byte hash to blob bytes. -/
abbrev Preimages := List (Bytes32 × Msg)

/-- Oracle lookup (`HashMap::get` keyed by hash). -/
def preimagesGet (m : Preimages) (h : Bytes32) : Option Msg :=
  (m.find? (fun p => p.1 == h)).map (fun p => p.2)

/-- The Session State shared by all host calls (the fields of `WasmEnv`
that wavmio touches; the retained socket handle is not modelled since no
shown logic reads it after bootstrap). -/
structure WasmEnv where
  forks : Bool
  small_globals : List Nat
  large_globals : List Bytes32
  sequencer_messages : Inbox
  delayed_messages : Inbox
  preimages : Preimages
  first_too_far : Nat
deriving DecidableEq, Repr

/-- The guest stack/memory accessor (`GoStack`): `words i` is the u64
read by `sp.read_u64(i)`, and `mem` is guest linear memory. -/
structure GoStack where
  words : Nat → Nat
  mem : List Nat

/-- Read the i-th u64 argument word. -/
def GoStack.read_u64 (sp : GoStack) (i : Nat) : Nat := sp.words i

/-- Read `len` bytes of guest memory starting at `ptr`. -/
def GoStack.read_slice (sp : GoStack) (ptr len : Nat) : List Nat :=
  (sp.mem.drop ptr).take len

/-- Guest memory size in bytes. -/
def GoStack.memory_size (sp : GoStack) : Nat := sp.mem.length

/-- One write a host call performs through the accessor: `write_u64`
stores a u64 into a stack result word, `write_slice` copies bytes into
guest memory at a pointer. -/
inductive Effect where
  | write_u64 (slot : Nat) (val : Nat)
  | write_slice (ptr : Nat) (data : List Nat)
deriving DecidableEq, Repr

/-- Read a u64 from the controller socket (`socket::read_u64`); any
framing mismatch is a fatal I/O failure, as the `?` propagation makes it. -/
def sockReadU64 : List WireItem → Except Escape (Nat × List WireItem)
  | .w64 v :: rest => .ok (v, rest)
  | _ => .error (.hostio "socket read failed")

/-- Read one byte from the controller socket (`socket::read_u8`). -/
def sockReadU8 : List WireItem → Except Escape (Nat × List WireItem)
  | .w8 v :: rest => .ok (v, rest)
  | _ => .error (.hostio "socket read failed")

/-- Read a 32-byte word from the controller socket (`socket::read_bytes32`). -/
def sockReadBytes32 : List WireItem → Except Escape (Bytes32 × List WireItem)
  | .wbytes32 b :: rest => .ok (b, rest)
  | _ => .error (.hostio "socket read failed")

/-- Read a length-prefixed byte sequence from the controller socket
(`socket::read_bytes`). -/
def sockReadBytes : List WireItem → Except Escape (Msg × List WireItem)
  | .wbytes b :: rest => .ok (b, rest)
  | _ => .error (.hostio "socket read failed")

/-- The stdin/fork loop at the head of `ready_hostio`: read a line
(appending it to `port`), then fork; the child breaks out with the
accumulated port text, the parent clears `port` and loops; a failed fork
or a read error is fatal; end-of-stream is a clean exit with status 0. -/
def bootLoop : List StdinEvent → String → Except Escape String
  | [], _ => .error (.exit 0)
  | .readErr msg :: _, _ => .error (.hostio ("Error reading stdin: " ++ msg))
  | .line s fr :: rest, port =>
    match fr with
    | .fail => .error (.hostio "Failed to fork")
    | .child => .ok (port ++ s)
    | .parent => bootLoop rest ""

/-- One ingestion loop of `ready_hostio`: while the continuation byte is
1, read a length-prefixed message, insert it at the running index, and
increment the index; any other continuation byte terminates the loop. -/
def ingest (pos : Nat) (m : Inbox) :
    List WireItem → Except Escape (Inbox × Nat × List WireItem)
  | .w8 1 :: .wbytes msg :: rest => ingest (pos + 1) (inboxInsert m pos msg) rest
  | .w8 1 :: _ => .error (.hostio "socket read failed")
  | .w8 _ :: rest => .ok (m, pos, rest)
  | _ => .error (.hostio "socket read failed")

/-- The lazy bootstrap protocol (`ready_hostio`): a no-op once `forks` is
false; otherwise runs the stdin/fork loop, connects to the controller,
reads the fixed preamble, installs the global vectors, rebuilds both inbox
maps from the two continuation-flagged streams, and clears `forks`. -/
def ready_hostio (env : WasmEnv) (bin : BootIn) : Except Escape WasmEnv :=
  if env.forks = false then .ok env
  else
    match bootLoop bin.stdin "" with
    | .error e => .error e
    | .ok _port =>
      match bin.connectErr with
      | some e => .error (.hostio e)
      | none =>
        match sockReadU64 bin.socket with
        | .error e => .error e
        | .ok (inbox_position, s1) =>
        match sockReadU64 s1 with
        | .error e => .error e
        | .ok (position_within_message, s2) =>
        match sockReadBytes32 s2 with
        | .error e => .error e
        | .ok (last_block_hash, s3) =>
        match sockReadBytes32 s3 with
        | .error e => .error e
        | .ok (last_send_root, s4) =>
        match sockReadU64 s4 with
        | .error e => .error e
        | .ok (delayed_position, s5) =>
        match ingest inbox_position [] s5 with
        | .error e => .error e
        | .ok (seq, _, s6) =>
        match ingest delayed_position [] s6 with
        | .error e => .error e
        | .ok (del, _, _s7) =>
          .ok { env with
            forks := false
            small_globals := [inbox_position, position_within_message]
            large_globals := [last_block_hash, last_send_root]
            sequencer_messages := seq
            delayed_messages := del }

/-- Diagnostic text of the MissingMessage failure. -/
def missingInboxMessageText (n f : Nat) (nm : String) : String :=
  "missing inbox message " ++ (toString n ++ (" of " ++ (toString f ++ (" in " ++ nm))))

/-- Diagnostic text of the MessageTooFar failure. -/
def messageTooFarText (n f : Nat) (nm : String) : String :=
  "message " ++ (toString n ++ (" of " ++ (toString f ++ (" too far in " ++ nm))))

/-- Diagnostic text of the UnknownMessageType (out-of-range destination
pointer) failure. -/
def unknownMessageTypeText (nm : String) : String :=
  "unknown message type in " ++ nm

/-- Diagnostic text of the BadOffset failure (`u32::try_from` on the
offset failed). -/
def badOffsetText (off : Nat) (nm : String) : String :=
  "bad offset " ++ (toString off ++ (" in " ++ nm))

/-- Lowercase-hex digit for a nibble, as `hex::encode` produces. -/
def hexDigit (n : Nat) : Char :=
  Char.ofNat (if n < 10 then 48 + n else 87 + n)

/-- `hex::encode` of a byte sequence. -/
def hexEncode (bs : List Nat) : String :=
  String.mk ((bs.map (fun b => [hexDigit (b / 16 % 16), hexDigit (b % 16)])).flatten)

/-- Diagnostic text of the MissingPreimage failure. -/
def missingPreimageText (hash : Bytes32) (nm : String) : String :=
  "Missing requested preimage for hash " ++ (hexEncode hash ++ (" in " ++ nm))

/-- The host call `getGlobalStateBytes32`: bootstrap if needed, decode the
slot index (`as u32 as usize`), clamp an oversized declared length to 32
(an undersized one is kept, with only a logged diagnostic), then copy the
slot's first `out_len` bytes to the destination; an out-of-bounds index is
fatal. -/
def get_global_state_bytes32 (env : WasmEnv) (bin : BootIn) (sp : GoStack) :
    Except Escape (WasmEnv × List Effect) :=
  match ready_hostio env bin with
  | .error e => .error e
  | .ok env =>
    let global := sp.read_u64 0 % 2 ^ 32
    let out_ptr := sp.read_u64 1
    let out_len0 := sp.read_u64 2
    let out_len := if out_len0 < 32 then out_len0 else 32
    match env.large_globals[global]? with
    | some g => .ok (env, [.write_slice out_ptr (g.take out_len)])
    | none =>
      .error (.hostio "global read out of bounds in wavmio.getGlobalStateBytes32")

/-- The host call `setGlobalStateBytes32`: bootstrap if needed; a declared
source length other than 32 logs a diagnostic and returns success without
any mutation; otherwise the 32 source bytes replace the indexed slot, an
out-of-bounds index being fatal. -/
def set_global_state_bytes32 (env : WasmEnv) (bin : BootIn) (sp : GoStack) :
    Except Escape (WasmEnv × List Effect) :=
  match ready_hostio env bin with
  | .error e => .error e
  | .ok env =>
    let global := sp.read_u64 0 % 2 ^ 32
    let src_ptr := sp.read_u64 1
    let src_len := sp.read_u64 2
    if src_len ≠ 32 then .ok (env, [])
    else
      let slice := sp.read_slice src_ptr src_len
      match env.large_globals[global]? with
      | some _ =>
        .ok ({ env with large_globals := env.large_globals.set global slice }, [])
      | none =>
        .error (.hostio "global write out of bounds in wavmio.setGlobalStateBytes32")

/-- The host call `getGlobalStateU64`: bootstrap if needed, then write the
indexed small-global into result word 1; an out-of-bounds index is fatal. -/
def get_global_state_u64 (env : WasmEnv) (bin : BootIn) (sp : GoStack) :
    Except Escape (WasmEnv × List Effect) :=
  match ready_hostio env bin with
  | .error e => .error e
  | .ok env =>
    let global := sp.read_u64 0 % 2 ^ 32
    match env.small_globals[global]? with
    | some v => .ok (env, [.write_u64 1 v])
    | none =>
      .error (.hostio "global read out of bounds in wavmio.getGlobalStateU64")

/-- The host call `setGlobalStateU64`: bootstrap if needed, then replace
the indexed small-global with argument word 1; an out-of-bounds index is
fatal. -/
def set_global_state_u64 (env : WasmEnv) (bin : BootIn) (sp : GoStack) :
    Except Escape (WasmEnv × List Effect) :=
  match ready_hostio env bin with
  | .error e => .error e
  | .ok env =>
    let global := sp.read_u64 0 % 2 ^ 32
    match env.small_globals[global]? with
    | some _ =>
      .ok ({ env with small_globals := env.small_globals.set global (sp.read_u64 1) }, [])
    | none =>
      .error (.hostio "global write out of bounds in wavmio.setGlobalStateU64")

/-- The shared inbox reader body (`inbox_message_impl`); the order of the
checks is the source's: declared-length guard, message lookup with the
MissingMessage / MessageTooFar classification against `first_too_far`,
destination bounds, offset conversion, then the clamped copy. -/
def inbox_message_impl (sp : GoStack) (env : WasmEnv) (inbox : Inbox)
    (nm : String) : Except Escape (List Effect) :=
  let msg_num := sp.read_u64 0
  let offset := sp.read_u64 1
  let out_ptr := sp.read_u64 2
  let out_len := sp.read_u64 3
  if out_len ≠ 32 then .ok [.write_u64 5 0]
  else
    match inboxGet inbox msg_num with
    | none =>
      if msg_num < env.first_too_far then
        .error (.hostio (missingInboxMessageText msg_num env.first_too_far nm))
      else
        .error (.hostio (messageTooFarText msg_num env.first_too_far nm))
    | some message =>
      if sp.memory_size < out_ptr + 32 then
        .error (.hostio (unknownMessageTypeText nm))
      else if 2 ^ 32 ≤ offset then
        .error (.hostio (badOffsetText offset nm))
      else
        let len := min 32 (message.length - offset)
        let read := (message.drop offset).take len
        .ok [.write_slice out_ptr read, .write_u64 5 read.length]

/-- The host call `readInboxMessage`: bootstrap if needed, then the shared
reader body over the sequencer map. -/
def read_inbox_message (env : WasmEnv) (bin : BootIn) (sp : GoStack) :
    Except Escape (WasmEnv × List Effect) :=
  match ready_hostio env bin with
  | .error e => .error e
  | .ok env =>
    match inbox_message_impl sp env env.sequencer_messages "wavmio.readInboxMessage" with
    | .error e => .error e
    | .ok effs => .ok (env, effs)

/-- The host call `readDelayedInboxMessage`: bootstrap if needed, then the
shared reader body over the delayed map. -/
def read_delayed_inbox_message (env : WasmEnv) (bin : BootIn) (sp : GoStack) :
    Except Escape (WasmEnv × List Effect) :=
  match ready_hostio env bin with
  | .error e => .error e
  | .ok env =>
    match inbox_message_impl sp env env.delayed_messages "wavmio.readDelayedInboxMessage" with
    | .error e => .error e
    | .ok effs => .ok (env, effs)

/-- The host call `resolvePreImage`: note that, unlike every other host
call, it does not run `ready_hostio`, and it performs no destination
bounds check; a declared hash or output length other than 32 is the
non-fatal zero-result path, an unknown hash and an offset that does not
fit in u32 are fatal, and otherwise the clamped chunk of the blob is
copied out with its byte count in result word 7. -/
def resolve_preimage (env : WasmEnv) (sp : GoStack) :
    Except Escape (WasmEnv × List Effect) :=
  let nm := "wavmio.resolvePreImage"
  let hash_ptr := sp.read_u64 0
  let hash_len := sp.read_u64 1
  let offset := sp.read_u64 3
  let out_ptr := sp.read_u64 4
  let out_len := sp.read_u64 5
  if hash_len ≠ 32 ∨ out_len ≠ 32 then .ok (env, [.write_u64 7 0])
  else
    let hash := sp.read_slice hash_ptr hash_len
    match preimagesGet env.preimages hash with
    | none => .error (.hostio (missingPreimageText hash nm))
    | some preimage =>
      if 2 ^ 32 ≤ offset then .error (.hostio (badOffsetText offset nm))
      else
        let len := min 32 (preimage.length - offset)
        let read := (preimage.drop offset).take len
        .ok (env, [.write_slice out_ptr read, .write_u64 7 read.length])

/-- A convenient concrete stack: argument words from a list (0 beyond its
end), over the given memory bytes. -/
def spOf (ws : List Nat) (mem : List Nat) : GoStack :=
  { words := fun i => ws.getD i 0, mem := mem }

/-- A bootstrap input carrying nothing at all. -/
def binNull : BootIn := { stdin := [], connectErr := none, socket := [] }

/-- Concatenation of the chunks the preimage oracle serves at offsets
0, 32, ..., 32*(n-1) for one blob; each chunk is the byte string
`resolvePreImage` copies out at that offset. -/
def preimageChunksJoined (blob : Msg) : Nat → Msg
  | 0 => []
  | n + 1 =>
    preimageChunksJoined blob n ++
      (blob.drop (32 * n)).take (min 32 (blob.length - 32 * n))

/-- A session state with everything empty and bootstrap already done. -/
def env0 : WasmEnv :=
  { forks := false, small_globals := [], large_globals := [],
    sequencer_messages := [], delayed_messages := [], preimages := [],
    first_too_far := 0 }

/-- A pre-bootstrap session state that already holds one preimage: the
all-zero 32-byte hash maps to the single byte 7. -/
def envPre : WasmEnv :=
  { env0 with forks := true, preimages := [(List.replicate 32 0, [7])] }

/-- A stack asking `resolvePreImage` for the all-zero hash (stored at
memory offset 0) with both lengths 32, offset 0, destination 64. -/
def spPre : GoStack := spOf [0, 32, 0, 0, 64, 32] (List.replicate 32 0)

/-- A post-bootstrap state whose sequencer inbox holds the empty message
at index 0, with horizon 5. -/
def envC3 : WasmEnv :=
  { env0 with sequencer_messages := [(0, [])], first_too_far := 5 }

/-- A stack asking the inbox reader for message 0 at offset `2 ^ 32`
(too large for u32), destination 0, declared length 32. -/
def spC3 : GoStack := spOf [0, 2 ^ 32, 0, 32] (List.replicate 32 0)

/-- A post-bootstrap state with one 32-byte global, every byte 3. -/
def envC5 : WasmEnv := { env0 with large_globals := [List.replicate 32 3] }

/-- A stack asking `getGlobalStateBytes32` for slot 0 into a declared
16-byte buffer at pointer 5. -/
def spC5 : GoStack := spOf [0, 5, 16] (List.replicate 64 0)

/-- A stack asking `setGlobalStateBytes32` for slot 0 with a declared
16-byte source. -/
def spC6 : GoStack := spOf [0, 0, 16] (List.replicate 64 0)

/-- A post-bootstrap session state with an empty sequencer inbox and
horizon 5, for exercising the absent-message classification. -/
def envW2 : WasmEnv := { env0 with first_too_far := 5 }

/-- A stack asking an inbox reader for message 3 with declared length 32
over an empty guest memory. -/
def spW2 : GoStack := spOf [3, 0, 0, 32] []

/-- A post-bootstrap session state carrying the message `[10, 11, 12]` at
index 4 of both inboxes, horizon 9. -/
def envW3 : WasmEnv :=
  { env0 with
    sequencer_messages := [(4, [10, 11, 12])]
    delayed_messages := [(4, [10, 11, 12])]
    first_too_far := 9 }

/-- A stack asking an inbox reader for message 4 at offset 1, declared
length 32, destination 0 over a 40-byte guest memory. -/
def spW3 : GoStack := spOf [4, 1, 0, 32] (List.replicate 40 0)

/-- A post-bootstrap session state with two small and two large globals. -/
def envW7 : WasmEnv :=
  { env0 with
    small_globals := [0, 0]
    large_globals := [List.replicate 32 0, List.replicate 32 0] }

/-- A 109-byte guest memory of 8s for the round-trip fixture. -/
def memW7 : List Nat := List.replicate 109 8

/-- A stack writing global slot 1: u64 value 77, or the 32 bytes at
source pointer 77 with declared length 32. -/
def spW7a : GoStack := spOf [1, 77, 32] memW7

/-- A stack reading global slot 1 back with a declared 32-byte buffer at
destination 200. -/
def spW7b : GoStack := spOf [1, 200, 32] memW7

/-- A post-bootstrap session state whose preimage oracle maps the all-zero
hash to the 3-byte blob `[1, 2, 3]`. -/
def envW9 : WasmEnv :=
  { env0 with preimages := [(List.replicate 32 0, [1, 2, 3])] }

/-- A stack asking `resolvePreImage` for the all-zero hash at offset 0,
destination 999 (far outside the 32-byte memory), both lengths 32. -/
def spW9 : GoStack := spOf [0, 32, 0, 0, 999, 32] (List.replicate 32 0)

/-- A stack asking `resolvePreImage` for the all-zero hash at offset
`2 ^ 32` (too large for u32), destination 64, both lengths 32. -/
def spC9 : GoStack := spOf [0, 32, 0, 2 ^ 32, 64, 32] (List.replicate 32 0)

/-- Appending distributes over the character data of strings. -/
theorem string_data_append (s t : String) : (s ++ t).data = s.data ++ t.data := by
  cases s
  cases t
  rfl

/-- Two appended strings whose left parts differ within their first two
characters are distinct. -/
theorem string_append_ne_of_prefix2 {s u : String} {a1 a2 b1 b2 : Char}
    (l1 l2 : List Char) (h1 : s.data = a1 :: a2 :: l1)
    (h2 : u.data = b1 :: b2 :: l2) (hne : ¬(a1 = b1 ∧ a2 = b2))
    (t v : String) : s ++ t ≠ u ++ v := by
  intro h
  have hd := congrArg String.data h
  rw [string_data_append, string_data_append, h1, h2] at hd
  simp only [List.cons_append, List.cons.injEq] at hd
  exact hne ⟨hd.1, hd.2.1⟩

/-- The MissingMessage and MessageTooFar diagnostics are never the same
string, whatever the indices and call name. -/
theorem missingText_ne_tooFarText (n f : Nat) (nm : String) :
    missingInboxMessageText n f nm ≠ messageTooFarText n f nm := by
  apply string_append_ne_of_prefix2 (("ssing inbox message ").data)
    (("ssage ").data) rfl rfl
  decide

/-- The BadOffset and UnknownMessageType diagnostics are never the same
string. -/
theorem badOffsetText_ne_unknownText (off : Nat) (nm nm2 : String) :
    badOffsetText off nm ≠ unknownMessageTypeText nm2 := by
  apply string_append_ne_of_prefix2 (("d offset ").data)
    (("known message type in ").data) rfl rfl
  decide

/-- The MissingPreimage and UnknownMessageType diagnostics are never the
same string. -/
theorem missingPreimageText_ne_unknownText (h : Bytes32) (nm nm2 : String) :
    missingPreimageText h nm ≠ unknownMessageTypeText nm2 := by
  apply string_append_ne_of_prefix2 (("ssing requested preimage for hash ").data)
    (("known message type in ").data) rfl rfl
  decide

/-- Once the session has forked and connected, `ready_hostio` is a no-op. -/
theorem ready_hostio_noop (env : WasmEnv) (bin : BootIn)
    (h : env.forks = false) : ready_hostio env bin = .ok env := by
  simp [ready_hostio, h]

/-- Whenever `ready_hostio` succeeds, the resulting session state has its
bootstrap flag cleared. -/
theorem ready_hostio_ok_forks (env : WasmEnv) (bin : BootIn) (env2 : WasmEnv)
    (h : ready_hostio env bin = .ok env2) : env2.forks = false := by
  by_cases hf : env.forks = false
  · rw [ready_hostio_noop env bin hf] at h
    cases h
    exact hf
  · simp only [ready_hostio, if_neg hf] at h
    repeat' split at h
    all_goals cases h
    rfl

/-- If every stdin line read by the bootstrap loop lands in the parent
branch of the fork, the loop runs until end-of-stream and exits cleanly. -/
theorem bootLoop_parents (l : List StdinEvent)
    (h : ∀ ev ∈ l, ∃ s, ev = StdinEvent.line s ForkRes.parent) :
    ∀ p, bootLoop l p = .error (.exit 0) := by
  induction l with
  | nil => intro p; rfl
  | cons a t ih =>
    intro p
    obtain ⟨s, rfl⟩ := h a (by simp)
    show bootLoop t "" = _
    exact ih (fun ev hev => h ev (by simp [hev])) ""

/-- Filtering away the bindings of one key does not change lookups of
another key. -/
theorem find_filter_ne (m : Inbox) (k j : Nat) (h : j ≠ k) :
    (m.filter (fun p => p.1 != k)).find? (fun p => p.1 == j) =
      m.find? (fun p => p.1 == j) := by
  induction m with
  | nil => rfl
  | cons a t ih =>
    by_cases hk : a.1 = k
    · have h1 : (a.1 != k) = false := by simp [hk]
      have h2 : (a.1 == j) = false := by simp [hk]; omega
      simp [List.filter_cons, h1, List.find?_cons, h2, ih]
    · have h1 : (a.1 != k) = true := by simp [hk]
      simp only [List.filter_cons, h1, if_pos, List.find?_cons]
      cases hj : (a.1 == j) with
      | true => rfl
      | false => exact ih

/-- Lookup after insertion: the inserted key returns the new value, any
other key looks up the old map. -/
theorem inboxGet_insert (m : Inbox) (k v j) :
    inboxGet (inboxInsert m k v) j = if j = k then some v else inboxGet m j := by
  unfold inboxGet inboxInsert
  rw [List.find?_cons]
  by_cases hj : j = k
  · subst hj
    simp
  · have hk : ((k, v).1 == j) = false := by simp; omega
    simp only [hk]
    rw [find_filter_ne m k j hj]
    simp [hj]

/-- The chunk served at an offset has exactly the clamped length
`min 32 (length - offset)`. -/
theorem chunk_length (msg : Msg) (off : Nat) :
    ((msg.drop off).take (min 32 (msg.length - off))).length =
      min 32 (msg.length - off) := by
  simp only [List.length_take, List.length_drop]
  omega

/-- Each byte of the served chunk is the source byte at the shifted
position. -/
theorem chunk_get (msg : Msg) (off i : Nat) (h : i < min 32 (msg.length - off)) :
    ((msg.drop off).take (min 32 (msg.length - off)))[i]? = msg[off + i]? := by
  rw [List.getElem?_take, if_pos h, List.getElem?_drop]

/-- An offset at or past the end of the message yields the empty chunk. -/
theorem chunk_nil (msg : Msg) (off : Nat) (h : msg.length ≤ off) :
    (msg.drop off).take (min 32 (msg.length - off)) = [] := by
  have h0 : msg.length - off = 0 := by omega
  simp [h0]

/-- Joining the first n chunks of a blob gives its first 32*n bytes. -/
theorem chunksJoined_eq_take (blob : Msg) (n : Nat) :
    preimageChunksJoined blob n = blob.take (32 * n) := by
  induction n with
  | zero => simp [preimageChunksJoined]
  | succ k ih =>
    have h32 : 32 * (k + 1) = 32 * k + 32 := by ring
    rw [preimageChunksJoined, ih, h32, List.take_add]
    congr 1
    rcases le_or_lt 32 (blob.length - 32 * k) with h | h
    · rw [min_eq_left h]
    · rw [min_eq_right (le_of_lt h)]
      rw [List.take_of_length_le (by simp [List.length_drop]),
        List.take_of_length_le (by simp [List.length_drop]; omega)]

/-- Chunked reads at offsets 0, 32, 64, ... reassemble the blob exactly
once the offsets have passed its end. -/
theorem chunksJoined_reassembles (blob : Msg) (n : Nat)
    (h : blob.length ≤ 32 * n) : preimageChunksJoined blob n = blob := by
  rw [chunksJoined_eq_take]
  exact List.take_of_length_le h

/-- The inbox reader body with a declared length other than 32 is the
non-fatal zero-count path. -/
theorem inbox_impl_bad_len (sp : GoStack) (env : WasmEnv) (inbox : Inbox)
    (nm : String) (h : sp.read_u64 3 ≠ 32) :
    inbox_message_impl sp env inbox nm = .ok [.write_u64 5 0] := by
  simp [inbox_message_impl, h]

/-- The inbox reader body on an absent index classifies against the
horizon before any other check: below it is MissingMessage, at or above
it is MessageTooFar. -/
theorem inbox_impl_absent (sp : GoStack) (env : WasmEnv) (inbox : Inbox)
    (nm : String) (h32 : sp.read_u64 3 = 32)
    (habs : inboxGet inbox (sp.read_u64 0) = none) :
    (sp.read_u64 0 < env.first_too_far →
      inbox_message_impl sp env inbox nm =
        .error (.hostio (missingInboxMessageText (sp.read_u64 0) env.first_too_far nm))) ∧
    (env.first_too_far ≤ sp.read_u64 0 →
      inbox_message_impl sp env inbox nm =
        .error (.hostio (messageTooFarText (sp.read_u64 0) env.first_too_far nm))) := by
  constructor
  · intro hlt
    simp [inbox_message_impl, h32, habs, hlt]
  · intro hge
    simp [inbox_message_impl, h32, habs, Nat.not_lt.mpr hge]

/-- The inbox reader body on a present message with an in-bounds
destination: a u32-representable offset succeeds with the clamped chunk
and its count, and an unrepresentable offset is the fatal BadOffset. -/
theorem inbox_impl_present (sp : GoStack) (env : WasmEnv) (inbox : Inbox)
    (nm : String) (msg : Msg) (h32 : sp.read_u64 3 = 32)
    (hmem : sp.read_u64 2 + 32 ≤ sp.memory_size)
    (hmsg : inboxGet inbox (sp.read_u64 0) = some msg) :
    (sp.read_u64 1 < 2 ^ 32 →
      inbox_message_impl sp env inbox nm = .ok
        [.write_slice (sp.read_u64 2)
            ((msg.drop (sp.read_u64 1)).take (min 32 (msg.length - sp.read_u64 1))),
          .write_u64 5 (min 32 (msg.length - sp.read_u64 1))]) ∧
    (2 ^ 32 ≤ sp.read_u64 1 →
      inbox_message_impl sp env inbox nm =
        .error (.hostio (badOffsetText (sp.read_u64 1) nm))) := by
  have hp : (2 : Nat) ^ 32 = 4294967296 := by norm_num
  constructor
  · intro hoff
    rw [hp] at hoff
    simp [inbox_message_impl, h32, hmsg, Nat.not_lt.mpr hmem, Nat.not_le.mpr hoff,
      chunk_length, hoff]
  · intro hoff
    rw [hp] at hoff
    simp [inbox_message_impl, h32, hmsg, Nat.not_lt.mpr hmem, hoff]

/-- The inbox reader body on a present message with an out-of-range
destination pointer fails fatally with UnknownMessageType. -/
theorem inbox_impl_oob_ptr (sp : GoStack) (env : WasmEnv) (inbox : Inbox)
    (nm : String) (msg : Msg) (h32 : sp.read_u64 3 = 32)
    (hmem : sp.memory_size < sp.read_u64 2 + 32)
    (hmsg : inboxGet inbox (sp.read_u64 0) = some msg) :
    inbox_message_impl sp env inbox nm =
      .error (.hostio (unknownMessageTypeText nm)) := by
  simp [inbox_message_impl, h32, hmsg, hmem]

/-- The preimage resolver with a declared hash or output length other
than 32 is the non-fatal zero-count path, for any state. -/
theorem resolve_bad_len (env : WasmEnv) (sp : GoStack)
    (h : sp.read_u64 1 ≠ 32 ∨ sp.read_u64 5 ≠ 32) :
    resolve_preimage env sp = .ok (env, [.write_u64 7 0]) := by
  simp only [resolve_preimage]
  rw [if_pos h]

/-- The preimage resolver on an unknown hash fails fatally with
MissingPreimage, whatever the offset and destination pointer are. -/
theorem resolve_missing (env : WasmEnv) (sp : GoStack)
    (h1 : sp.read_u64 1 = 32) (h5 : sp.read_u64 5 = 32)
    (habs : preimagesGet env.preimages (sp.read_slice (sp.read_u64 0) 32) = none) :
    resolve_preimage env sp =
      .error (.hostio (missingPreimageText (sp.read_slice (sp.read_u64 0) 32)
        "wavmio.resolvePreImage")) := by
  simp [resolve_preimage, h1, h5, habs]

/-- The preimage resolver on a known hash: a u32-representable offset
succeeds with the clamped chunk and its count (leaving the session state
untouched), and an unrepresentable offset is the fatal BadOffset. -/
theorem resolve_known (env : WasmEnv) (sp : GoStack) (blob : Msg)
    (h1 : sp.read_u64 1 = 32) (h5 : sp.read_u64 5 = 32)
    (hpre : preimagesGet env.preimages (sp.read_slice (sp.read_u64 0) 32) = some blob) :
    (sp.read_u64 3 < 2 ^ 32 →
      resolve_preimage env sp = .ok (env,
        [.write_slice (sp.read_u64 4)
            ((blob.drop (sp.read_u64 3)).take (min 32 (blob.length - sp.read_u64 3))),
          .write_u64 7 (min 32 (blob.length - sp.read_u64 3))])) ∧
    (2 ^ 32 ≤ sp.read_u64 3 →
      resolve_preimage env sp =
        .error (.hostio (badOffsetText (sp.read_u64 3) "wavmio.resolvePreImage"))) := by
  have hp : (2 : Nat) ^ 32 = 4294967296 := by norm_num
  constructor
  · intro hoff
    rw [hp] at hoff
    simp [resolve_preimage, h1, h5, hpre, Nat.not_le.mpr hoff, chunk_length]
  · intro hoff
    rw [hp] at hoff
    simp [resolve_preimage, h1, h5, hpre, hoff]

/-- The preimage resolver never mutates the session state: every
successful return carries the state it was given. -/
theorem resolve_ok_env (env : WasmEnv) (sp : GoStack) (env2 : WasmEnv)
    (effs : List Effect) (h : resolve_preimage env sp = .ok (env2, effs)) :
    env2 = env := by
  by_cases hlen : sp.read_u64 1 ≠ 32 ∨ sp.read_u64 5 ≠ 32
  · rw [resolve_preimage, if_pos hlen] at h
    cases h
    rfl
  · rcases hget : preimagesGet env.preimages (sp.read_slice (sp.read_u64 0) (sp.read_u64 1))
      with _ | blob
    · rw [resolve_preimage, if_neg hlen] at h
      simp only [hget] at h
      cases h
    · rw [resolve_preimage, if_neg hlen] at h
      simp only [hget] at h
      by_cases hoff : 2 ^ 32 ≤ sp.read_u64 3
      · rw [if_pos hoff] at h
        cases h
      · rw [if_neg hoff] at h
        cases h
        rfl

/-- When `ready_hostio` fails, each of the six bootstrap-guarded host
calls propagates exactly that failure without dispatching. -/
theorem calls_propagate_bootstrap_error (env : WasmEnv) (bin : BootIn)
    (sp : GoStack) (e : Escape) (h : ready_hostio env bin = .error e) :
    get_global_state_bytes32 env bin sp = .error e ∧
    set_global_state_bytes32 env bin sp = .error e ∧
    get_global_state_u64 env bin sp = .error e ∧
    set_global_state_u64 env bin sp = .error e ∧
    read_inbox_message env bin sp = .error e ∧
    read_delayed_inbox_message env bin sp = .error e := by
  refine ⟨?_, ?_, ?_, ?_, ?_, ?_⟩ <;>
    simp [get_global_state_bytes32, set_global_state_bytes32,
      get_global_state_u64, set_global_state_u64, read_inbox_message,
      read_delayed_inbox_message, h]

/-- When `ready_hostio` succeeds, each of the six bootstrap-guarded host
calls dispatches its accessor against the bootstrapped state. -/
theorem calls_dispatch_after_bootstrap (env : WasmEnv) (bin : BootIn)
    (sp : GoStack) (env2 : WasmEnv) (h : ready_hostio env bin = .ok env2) :
    get_global_state_bytes32 env bin sp = get_global_state_bytes32 env2 binNull sp ∧
    set_global_state_bytes32 env bin sp = set_global_state_bytes32 env2 binNull sp ∧
    get_global_state_u64 env bin sp = get_global_state_u64 env2 binNull sp ∧
    set_global_state_u64 env bin sp = set_global_state_u64 env2 binNull sp ∧
    read_inbox_message env bin sp = read_inbox_message env2 binNull sp ∧
    read_delayed_inbox_message env bin sp = read_delayed_inbox_message env2 binNull sp := by
  have h2 : ready_hostio env2 binNull = .ok env2 :=
    ready_hostio_noop env2 binNull (ready_hostio_ok_forks env bin env2 h)
  refine ⟨?_, ?_, ?_, ?_, ?_, ?_⟩ <;>
    simp [get_global_state_bytes32, set_global_state_bytes32,
      get_global_state_u64, set_global_state_u64, read_inbox_message,
      read_delayed_inbox_message, h, h2]

/-- A post-bootstrap sequencer read reduces to the shared body, lifting
its failure. -/
theorem read_inbox_err (env : WasmEnv) (bin : BootIn) (sp : GoStack)
    (e : Escape) (hf : env.forks = false)
    (h : inbox_message_impl sp env env.sequencer_messages
      "wavmio.readInboxMessage" = .error e) :
    read_inbox_message env bin sp = .error e := by
  simp [read_inbox_message, ready_hostio_noop env bin hf, h]

/-- A post-bootstrap sequencer read reduces to the shared body, lifting
its effects. -/
theorem read_inbox_ok (env : WasmEnv) (bin : BootIn) (sp : GoStack)
    (effs : List Effect) (hf : env.forks = false)
    (h : inbox_message_impl sp env env.sequencer_messages
      "wavmio.readInboxMessage" = .ok effs) :
    read_inbox_message env bin sp = .ok (env, effs) := by
  simp [read_inbox_message, ready_hostio_noop env bin hf, h]

/-- A post-bootstrap delayed read reduces to the shared body, lifting its
failure. -/
theorem read_delayed_err (env : WasmEnv) (bin : BootIn) (sp : GoStack)
    (e : Escape) (hf : env.forks = false)
    (h : inbox_message_impl sp env env.delayed_messages
      "wavmio.readDelayedInboxMessage" = .error e) :
    read_delayed_inbox_message env bin sp = .error e := by
  simp [read_delayed_inbox_message, ready_hostio_noop env bin hf, h]

/-- A post-bootstrap delayed read reduces to the shared body, lifting its
effects. -/
theorem read_delayed_ok (env : WasmEnv) (bin : BootIn) (sp : GoStack)
    (effs : List Effect) (hf : env.forks = false)
    (h : inbox_message_impl sp env env.delayed_messages
      "wavmio.readDelayedInboxMessage" = .ok effs) :
    read_delayed_inbox_message env bin sp = .ok (env, effs) := by
  simp [read_delayed_inbox_message, ready_hostio_noop env bin hf, h]

/-- C2: with declared length 32, an inbox read (sequencer or delayed) of
an index absent from the corresponding map fails fatally with the
MissingMessage diagnostic when the index is below the horizon and with
the MessageTooFar diagnostic at or above it; the two diagnostics are
distinct strings for every index, horizon and call name.  No hypothesis
constrains the destination pointer, the guest memory or the offset: the
classification precedes the bounds and offset checks. -/
theorem inbox_absent_is_classified_fatal (env : WasmEnv) (bin : BootIn)
    (sp : GoStack) (hf : env.forks = false) (h32 : sp.read_u64 3 = 32) :
    (inboxGet env.sequencer_messages (sp.read_u64 0) = none →
      (sp.read_u64 0 < env.first_too_far →
        read_inbox_message env bin sp = .error (.hostio
          (missingInboxMessageText (sp.read_u64 0) env.first_too_far
            "wavmio.readInboxMessage"))) ∧
      (env.first_too_far ≤ sp.read_u64 0 →
        read_inbox_message env bin sp = .error (.hostio
          (messageTooFarText (sp.read_u64 0) env.first_too_far
            "wavmio.readInboxMessage")))) ∧
    (inboxGet env.delayed_messages (sp.read_u64 0) = none →
      (sp.read_u64 0 < env.first_too_far →
        read_delayed_inbox_message env bin sp = .error (.hostio
          (missingInboxMessageText (sp.read_u64 0) env.first_too_far
            "wavmio.readDelayedInboxMessage"))) ∧
      (env.first_too_far ≤ sp.read_u64 0 →
        read_delayed_inbox_message env bin sp = .error (.hostio
          (messageTooFarText (sp.read_u64 0) env.first_too_far
            "wavmio.readDelayedInboxMessage")))) ∧
    (∀ n f nm, missingInboxMessageText n f nm ≠ messageTooFarText n f nm) := by
  refine ⟨?_, ?_, fun n f nm => missingText_ne_tooFarText n f nm⟩
  · intro habs
    obtain ⟨hlo, hhi⟩ := inbox_impl_absent sp env env.sequencer_messages
      "wavmio.readInboxMessage" h32 habs
    exact ⟨fun hlt => read_inbox_err env bin sp _ hf (hlo hlt),
      fun hge => read_inbox_err env bin sp _ hf (hhi hge)⟩
  · intro habs
    obtain ⟨hlo, hhi⟩ := inbox_impl_absent sp env env.delayed_messages
      "wavmio.readDelayedInboxMessage" h32 habs
    exact ⟨fun hlt => read_delayed_err env bin sp _ hf (hlo hlt),
      fun hge => read_delayed_err env bin sp _ hf (hhi hge)⟩

/-- Witness for C2 at a concrete state: empty inboxes, horizon 5,
requesting index 3 with declared length 32 over an empty guest memory. -/
theorem inbox_absent_is_classified_fatal_witness :
    envW2.forks = false ∧ spW2.read_u64 3 = 32 ∧
    ((inboxGet envW2.sequencer_messages (spW2.read_u64 0) = none →
      (spW2.read_u64 0 < envW2.first_too_far →
        read_inbox_message envW2 binNull spW2 = .error (.hostio
          (missingInboxMessageText (spW2.read_u64 0) envW2.first_too_far
            "wavmio.readInboxMessage"))) ∧
      (envW2.first_too_far ≤ spW2.read_u64 0 →
        read_inbox_message envW2 binNull spW2 = .error (.hostio
          (messageTooFarText (spW2.read_u64 0) envW2.first_too_far
            "wavmio.readInboxMessage")))) ∧
    (inboxGet envW2.delayed_messages (spW2.read_u64 0) = none →
      (spW2.read_u64 0 < envW2.first_too_far →
        read_delayed_inbox_message envW2 binNull spW2 = .error (.hostio
          (missingInboxMessageText (spW2.read_u64 0) envW2.first_too_far
            "wavmio.readDelayedInboxMessage"))) ∧
      (envW2.first_too_far ≤ spW2.read_u64 0 →
        read_delayed_inbox_message envW2 binNull spW2 = .error (.hostio
          (messageTooFarText (spW2.read_u64 0) envW2.first_too_far
            "wavmio.readDelayedInboxMessage")))) ∧
    (∀ n f nm, missingInboxMessageText n f nm ≠ messageTooFarText n f nm)) :=
  ⟨by decide, by decide,
    inbox_absent_is_classified_fatal envW2 binNull spW2 (by decide) (by decide)⟩

/-- C4: when stdin reaches end-of-stream before this process ever lands
in the child branch of a fork (every read line fell to the parent), the
bootstrap protocol terminates with the clean `exit 0` outcome, which is
not a host-I/O error. -/
theorem bootstrap_eof_is_clean_exit (env : WasmEnv) (bin : BootIn)
    (hf : env.forks = true)
    (hstdin : ∀ ev ∈ bin.stdin, ∃ s, ev = StdinEvent.line s ForkRes.parent) :
    ready_hostio env bin = .error (.exit 0) ∧
    ∀ msg, (Escape.exit 0) ≠ Escape.hostio msg := by
  constructor
  · have hb := bootLoop_parents bin.stdin hstdin ""
    simp [ready_hostio, hf, hb]
  · intro msg h
    cases h

/-- Witness for C4: a pre-bootstrap state whose controller input is
already exhausted. -/
theorem bootstrap_eof_is_clean_exit_witness :
    envPre.forks = true ∧
    (∀ ev ∈ binNull.stdin, ∃ s, ev = StdinEvent.line s ForkRes.parent) ∧
    (ready_hostio envPre binNull = .error (.exit 0) ∧
      ∀ msg, (Escape.exit 0) ≠ Escape.hostio msg) :=
  ⟨by decide, by simp [binNull],
    bootstrap_eof_is_clean_exit envPre binNull (by decide) (by simp [binNull])⟩

/-- Counterexample to C1 as stated: with the bootstrap flag still set and
the controller input in a state where running the bootstrap protocol
would terminate the process (`exit 0`), `resolvePreImage` nonetheless
runs its accessor logic to completion against the pre-bootstrap session
state and succeeds. -/
theorem resolve_preimage_skips_bootstrap :
    envPre.forks = true ∧
    ready_hostio envPre binNull = .error (.exit 0) ∧
    resolve_preimage envPre spPre =
      .ok (envPre, [.write_slice 64 [7], .write_u64 7 1]) :=
  ⟨by decide, rfl, rfl⟩

/-- C1 (amended): the six global-state and inbox host calls run
`ready_hostio` before dispatching: when bootstrap fails they propagate
exactly its failure without touching their accessor, and when it succeeds
they dispatch against the bootstrapped state, whose forks flag is
cleared.  `resolvePreImage` is the exception: it dispatches directly,
never triggering bootstrap, and leaves the pre-bootstrap state (forks
still set) unchanged. -/
theorem hostio_calls_run_bootstrap_first (env : WasmEnv) (bin : BootIn)
    (sp : GoStack) (hf : env.forks = true) :
    (∀ e, ready_hostio env bin = .error e →
      get_global_state_bytes32 env bin sp = .error e ∧
      set_global_state_bytes32 env bin sp = .error e ∧
      get_global_state_u64 env bin sp = .error e ∧
      set_global_state_u64 env bin sp = .error e ∧
      read_inbox_message env bin sp = .error e ∧
      read_delayed_inbox_message env bin sp = .error e) ∧
    (∀ env2, ready_hostio env bin = .ok env2 →
      env2.forks = false ∧
      get_global_state_bytes32 env bin sp = get_global_state_bytes32 env2 binNull sp ∧
      set_global_state_bytes32 env bin sp = set_global_state_bytes32 env2 binNull sp ∧
      get_global_state_u64 env bin sp = get_global_state_u64 env2 binNull sp ∧
      set_global_state_u64 env bin sp = set_global_state_u64 env2 binNull sp ∧
      read_inbox_message env bin sp = read_inbox_message env2 binNull sp ∧
      read_delayed_inbox_message env bin sp = read_delayed_inbox_message env2 binNull sp) ∧
    (∀ env2 effs, resolve_preimage env sp = .ok (env2, effs) →
      env2 = env ∧ env2.forks = true) := by
  refine ⟨?_, ?_, ?_⟩
  · intro e h
    exact calls_propagate_bootstrap_error env bin sp e h
  · intro env2 h
    exact ⟨ready_hostio_ok_forks env bin env2 h,
      calls_dispatch_after_bootstrap env bin sp env2 h⟩
  · intro env2 effs h
    have he := resolve_ok_env env sp env2 effs h
    refine ⟨he, ?_⟩
    rw [he]
    exact hf

/-- Witness for the amended C1 at a concrete pre-bootstrap state. -/
theorem hostio_calls_run_bootstrap_first_witness :
    envPre.forks = true ∧
    ((∀ e, ready_hostio envPre binNull = .error e →
      get_global_state_bytes32 envPre binNull spPre = .error e ∧
      set_global_state_bytes32 envPre binNull spPre = .error e ∧
      get_global_state_u64 envPre binNull spPre = .error e ∧
      set_global_state_u64 envPre binNull spPre = .error e ∧
      read_inbox_message envPre binNull spPre = .error e ∧
      read_delayed_inbox_message envPre binNull spPre = .error e) ∧
    (∀ env2, ready_hostio envPre binNull = .ok env2 →
      env2.forks = false ∧
      get_global_state_bytes32 envPre binNull spPre = get_global_state_bytes32 env2 binNull spPre ∧
      set_global_state_bytes32 envPre binNull spPre = set_global_state_bytes32 env2 binNull spPre ∧
      get_global_state_u64 envPre binNull spPre = get_global_state_u64 env2 binNull spPre ∧
      set_global_state_u64 envPre binNull spPre = set_global_state_u64 env2 binNull spPre ∧
      read_inbox_message envPre binNull spPre = read_inbox_message env2 binNull spPre ∧
      read_delayed_inbox_message envPre binNull spPre = read_delayed_inbox_message env2 binNull spPre) ∧
    (∀ env2 effs, resolve_preimage envPre spPre = .ok (env2, effs) →
      env2 = envPre ∧ env2.forks = true)) :=
  ⟨by decide, hostio_calls_run_bootstrap_first envPre binNull spPre (by decide)⟩

/-- Counterexample to C3 as stated: for the message present at index 0
(the empty message), declared length 32 and an in-bounds destination, the
offset `2 ^ 32` is at or past the message end, yet the call does not
succeed with a zero-length result: it fails fatally with the BadOffset
diagnostic because the offset does not fit in u32. -/
theorem inbox_read_huge_offset_is_fatal :
    inboxGet envC3.sequencer_messages (spC3.read_u64 0) = some [] ∧
    spC3.read_u64 2 + 32 ≤ spC3.memory_size ∧
    List.length ([] : Msg) ≤ spC3.read_u64 1 ∧
    read_inbox_message envC3 binNull spC3 =
      .error (.hostio (badOffsetText (2 ^ 32) "wavmio.readInboxMessage")) :=
  ⟨rfl, by decide, by decide, rfl⟩

/-- C3 (amended): for an inbox read (sequencer or delayed) with declared
length 32, an in-bounds destination and a present message, every offset
below `2 ^ 32` succeeds: an offset at or past the message end gives a
zero-length write and count 0, otherwise exactly
`min 32 (length - offset)` bytes equal to the message content at that
offset are written, with that count in output word 5; an offset of
`2 ^ 32` or more instead fails fatally with the BadOffset diagnostic. -/
theorem inbox_read_present_is_clamped (env : WasmEnv) (bin : BootIn)
    (sp : GoStack) (hf : env.forks = false) (h32 : sp.read_u64 3 = 32)
    (hmem : sp.read_u64 2 + 32 ≤ sp.memory_size) :
    (∀ msg, inboxGet env.sequencer_messages (sp.read_u64 0) = some msg →
      (sp.read_u64 1 < 2 ^ 32 →
        read_inbox_message env bin sp = .ok (env,
          [.write_slice (sp.read_u64 2)
              ((msg.drop (sp.read_u64 1)).take (min 32 (msg.length - sp.read_u64 1))),
            .write_u64 5 (min 32 (msg.length - sp.read_u64 1))])) ∧
      (2 ^ 32 ≤ sp.read_u64 1 →
        read_inbox_message env bin sp =
          .error (.hostio (badOffsetText (sp.read_u64 1) "wavmio.readInboxMessage")))) ∧
    (∀ msg, inboxGet env.delayed_messages (sp.read_u64 0) = some msg →
      (sp.read_u64 1 < 2 ^ 32 →
        read_delayed_inbox_message env bin sp = .ok (env,
          [.write_slice (sp.read_u64 2)
              ((msg.drop (sp.read_u64 1)).take (min 32 (msg.length - sp.read_u64 1))),
            .write_u64 5 (min 32 (msg.length - sp.read_u64 1))])) ∧
      (2 ^ 32 ≤ sp.read_u64 1 →
        read_delayed_inbox_message env bin sp =
          .error (.hostio (badOffsetText (sp.read_u64 1) "wavmio.readDelayedInboxMessage")))) ∧
    (∀ (msg : Msg) (off : Nat),
      ((msg.drop off).take (min 32 (msg.length - off))).length =
        min 32 (msg.length - off)) ∧
    (∀ (msg : Msg) (off i : Nat), i < min 32 (msg.length - off) →
      ((msg.drop off).take (min 32 (msg.length - off)))[i]? = msg[off + i]?) ∧
    (∀ (msg : Msg) (off : Nat), msg.length ≤ off →
      (msg.drop off).take (min 32 (msg.length - off)) = [] ∧
      min 32 (msg.length - off) = 0) := by
  refine ⟨?_, ?_, chunk_length, chunk_get,
    fun msg off h => ⟨chunk_nil msg off h, by omega⟩⟩
  · intro msg hmsg
    obtain ⟨hok, herr⟩ := inbox_impl_present sp env env.sequencer_messages
      "wavmio.readInboxMessage" msg h32 hmem hmsg
    exact ⟨fun hoff => read_inbox_ok env bin sp _ hf (hok hoff),
      fun hoff => read_inbox_err env bin sp _ hf (herr hoff)⟩
  · intro msg hmsg
    obtain ⟨hok, herr⟩ := inbox_impl_present sp env env.delayed_messages
      "wavmio.readDelayedInboxMessage" msg h32 hmem hmsg
    exact ⟨fun hoff => read_delayed_ok env bin sp _ hf (hok hoff),
      fun hoff => read_delayed_err env bin sp _ hf (herr hoff)⟩

/-- Witness for the amended C3 at a concrete state: both inboxes hold
`[10, 11, 12]` at index 4, read at offset 1 into a 40-byte memory. -/
theorem inbox_read_present_is_clamped_witness :
    envW3.forks = false ∧ spW3.read_u64 3 = 32 ∧
    spW3.read_u64 2 + 32 ≤ spW3.memory_size ∧
    ((∀ msg, inboxGet envW3.sequencer_messages (spW3.read_u64 0) = some msg →
      (spW3.read_u64 1 < 2 ^ 32 →
        read_inbox_message envW3 binNull spW3 = .ok (envW3,
          [.write_slice (spW3.read_u64 2)
              ((msg.drop (spW3.read_u64 1)).take (min 32 (msg.length - spW3.read_u64 1))),
            .write_u64 5 (min 32 (msg.length - spW3.read_u64 1))])) ∧
      (2 ^ 32 ≤ spW3.read_u64 1 →
        read_inbox_message envW3 binNull spW3 =
          .error (.hostio (badOffsetText (spW3.read_u64 1) "wavmio.readInboxMessage")))) ∧
    (∀ msg, inboxGet envW3.delayed_messages (spW3.read_u64 0) = some msg →
      (spW3.read_u64 1 < 2 ^ 32 →
        read_delayed_inbox_message envW3 binNull spW3 = .ok (envW3,
          [.write_slice (spW3.read_u64 2)
              ((msg.drop (spW3.read_u64 1)).take (min 32 (msg.length - spW3.read_u64 1))),
            .write_u64 5 (min 32 (msg.length - spW3.read_u64 1))])) ∧
      (2 ^ 32 ≤ spW3.read_u64 1 →
        read_delayed_inbox_message envW3 binNull spW3 =
          .error (.hostio (badOffsetText (spW3.read_u64 1) "wavmio.readDelayedInboxMessage")))) ∧
    (∀ (msg : Msg) (off : Nat),
      ((msg.drop off).take (min 32 (msg.length - off))).length =
        min 32 (msg.length - off)) ∧
    (∀ (msg : Msg) (off i : Nat), i < min 32 (msg.length - off) →
      ((msg.drop off).take (min 32 (msg.length - off)))[i]? = msg[off + i]?) ∧
    (∀ (msg : Msg) (off : Nat), msg.length ≤ off →
      (msg.drop off).take (min 32 (msg.length - off)) = [] ∧
      min 32 (msg.length - off) = 0)) :=
  ⟨by decide, by decide, by decide,
    inbox_read_present_is_clamped envW3 binNull spW3 (by decide) (by decide) (by decide)⟩

/-- Counterexample to C5 as stated: `getGlobalStateBytes32` with a
declared length of 16 does not leave guest memory unchanged with zero
bytes transferred; it writes 16 bytes of the slot into guest memory. -/
theorem get_bytes32_short_len_clamped_write :
    envC5.forks = false ∧ spC5.read_u64 2 = 16 ∧
    get_global_state_bytes32 envC5 binNull spC5 =
      .ok (envC5, [.write_slice 5 (List.replicate 16 3)]) ∧
    [Effect.write_slice 5 (List.replicate 16 3)] ≠ ([] : List Effect) :=
  ⟨by decide, by decide, rfl, by decide⟩

/-- C5 (amended): a declared length other than 32 is non-fatal for
`setGlobalStateBytes32` (success, no state change, no write), for the two
inbox readers (success, only a zero byte count in word 5) and for
`resolvePreImage` (success, only a zero byte count in word 7);
`getGlobalStateBytes32` instead clamps: a declared length above 32
behaves as 32, and a declared length below 32 reads out exactly that
many bytes. -/
theorem bad_declared_length_handling (env : WasmEnv) (bin : BootIn)
    (sp : GoStack) (hf : env.forks = false) :
    (sp.read_u64 2 ≠ 32 → set_global_state_bytes32 env bin sp = .ok (env, [])) ∧
    (sp.read_u64 3 ≠ 32 →
      read_inbox_message env bin sp = .ok (env, [.write_u64 5 0]) ∧
      read_delayed_inbox_message env bin sp = .ok (env, [.write_u64 5 0])) ∧
    (sp.read_u64 1 ≠ 32 ∨ sp.read_u64 5 ≠ 32 →
      resolve_preimage env sp = .ok (env, [.write_u64 7 0])) ∧
    (∀ g, env.large_globals[sp.read_u64 0 % 2 ^ 32]? = some g →
      get_global_state_bytes32 env bin sp = .ok (env,
        [.write_slice (sp.read_u64 1)
          (g.take (if sp.read_u64 2 < 32 then sp.read_u64 2 else 32))])) := by
  refine ⟨?_, ?_, ?_, ?_⟩
  · intro h
    simp [set_global_state_bytes32, ready_hostio_noop env bin hf, h]
  · intro h
    exact ⟨read_inbox_ok env bin sp _ hf
        (inbox_impl_bad_len sp env env.sequencer_messages _ h),
      read_delayed_ok env bin sp _ hf
        (inbox_impl_bad_len sp env env.delayed_messages _ h)⟩
  · intro h
    exact resolve_bad_len env sp h
  · intro g hg
    have hp : (2 : Nat) ^ 32 = 4294967296 := by norm_num
    rw [hp] at hg
    simp [get_global_state_bytes32, ready_hostio_noop env bin hf, hg]

/-- Witness for the amended C5 at a concrete state with one large global
and a declared length of 16. -/
theorem bad_declared_length_handling_witness :
    envC5.forks = false ∧
    ((spC5.read_u64 2 ≠ 32 → set_global_state_bytes32 envC5 binNull spC5 = .ok (envC5, [])) ∧
    (spC5.read_u64 3 ≠ 32 →
      read_inbox_message envC5 binNull spC5 = .ok (envC5, [.write_u64 5 0]) ∧
      read_delayed_inbox_message envC5 binNull spC5 = .ok (envC5, [.write_u64 5 0])) ∧
    (spC5.read_u64 1 ≠ 32 ∨ spC5.read_u64 5 ≠ 32 →
      resolve_preimage envC5 spC5 = .ok (envC5, [.write_u64 7 0])) ∧
    (∀ g, envC5.large_globals[spC5.read_u64 0 % 2 ^ 32]? = some g →
      get_global_state_bytes32 envC5 binNull spC5 = .ok (envC5,
        [.write_slice (spC5.read_u64 1)
          (g.take (if spC5.read_u64 2 < 32 then spC5.read_u64 2 else 32))]))) :=
  ⟨by decide, bad_declared_length_handling envC5 binNull spC5 (by decide)⟩

/-- Counterexample to C6 as stated: `setGlobalStateBytes32` with an
out-of-bounds slot index but a declared length of 16 does not fail
fatally; the malformed-length path returns success first (still without
touching any slot). -/
theorem set_bytes32_oob_index_nonfatal_on_short_len :
    env0.large_globals.length ≤ spC6.read_u64 0 % 2 ^ 32 ∧
    spC6.read_u64 2 ≠ 32 ∧
    set_global_state_bytes32 env0 binNull spC6 = .ok (env0, []) :=
  ⟨by decide, by decide, rfl⟩

/-- C6 (amended): a slot index at or beyond the current vector length is
the fatal GlobalOutOfBounds failure for `getGlobalStateU64`,
`setGlobalStateU64` and `getGlobalStateBytes32` unconditionally, and for
`setGlobalStateBytes32` whenever its declared length is 32; with any
other declared length the malformed-length path takes precedence and
returns success without touching any slot.  In every case no out-of-
bounds slot is read or written. -/
theorem global_oob_is_fatal (env : WasmEnv) (bin : BootIn) (sp : GoStack)
    (hf : env.forks = false) :
    (env.small_globals.length ≤ sp.read_u64 0 % 2 ^ 32 →
      get_global_state_u64 env bin sp =
        .error (.hostio "global read out of bounds in wavmio.getGlobalStateU64") ∧
      set_global_state_u64 env bin sp =
        .error (.hostio "global write out of bounds in wavmio.setGlobalStateU64")) ∧
    (env.large_globals.length ≤ sp.read_u64 0 % 2 ^ 32 →
      get_global_state_bytes32 env bin sp =
        .error (.hostio "global read out of bounds in wavmio.getGlobalStateBytes32") ∧
      (sp.read_u64 2 = 32 →
        set_global_state_bytes32 env bin sp =
          .error (.hostio "global write out of bounds in wavmio.setGlobalStateBytes32")) ∧
      (sp.read_u64 2 ≠ 32 →
        set_global_state_bytes32 env bin sp = .ok (env, []))) := by
  have hp : (2 : Nat) ^ 32 = 4294967296 := by norm_num
  constructor
  · intro h
    have hn : env.small_globals[sp.read_u64 0 % 2 ^ 32]? = none :=
      List.getElem?_eq_none h
    rw [hp] at hn
    constructor
    · simp [get_global_state_u64, ready_hostio_noop env bin hf, hn]
    · simp [set_global_state_u64, ready_hostio_noop env bin hf, hn]
  · intro h
    have hn : env.large_globals[sp.read_u64 0 % 2 ^ 32]? = none :=
      List.getElem?_eq_none h
    rw [hp] at hn
    refine ⟨?_, ?_, ?_⟩
    · simp [get_global_state_bytes32, ready_hostio_noop env bin hf, hn]
    · intro hlen
      simp [set_global_state_bytes32, ready_hostio_noop env bin hf, hn, hlen]
    · intro hlen
      simp [set_global_state_bytes32, ready_hostio_noop env bin hf, hlen]

/-- Witness for the amended C6 at a concrete state with empty slot
vectors and index 0. -/
theorem global_oob_is_fatal_witness :
    env0.forks = false ∧
    ((env0.small_globals.length ≤ spC6.read_u64 0 % 2 ^ 32 →
      get_global_state_u64 env0 binNull spC6 =
        .error (.hostio "global read out of bounds in wavmio.getGlobalStateU64") ∧
      set_global_state_u64 env0 binNull spC6 =
        .error (.hostio "global write out of bounds in wavmio.setGlobalStateU64")) ∧
    (env0.large_globals.length ≤ spC6.read_u64 0 % 2 ^ 32 →
      get_global_state_bytes32 env0 binNull spC6 =
        .error (.hostio "global read out of bounds in wavmio.getGlobalStateBytes32") ∧
      (spC6.read_u64 2 = 32 →
        set_global_state_bytes32 env0 binNull spC6 =
          .error (.hostio "global write out of bounds in wavmio.setGlobalStateBytes32")) ∧
      (spC6.read_u64 2 ≠ 32 →
        set_global_state_bytes32 env0 binNull spC6 = .ok (env0, [])))) :=
  ⟨by decide, global_oob_is_fatal env0 binNull spC6 (by decide)⟩

/-- A found u64 global read returns the stored value in word 1. -/
theorem get_u64_found (env : WasmEnv) (bin : BootIn) (sp : GoStack)
    (hf : env.forks = false) (v : Nat)
    (hv : env.small_globals[sp.read_u64 0 % 4294967296]? = some v) :
    get_global_state_u64 env bin sp = .ok (env, [.write_u64 1 v]) := by
  simp [get_global_state_u64, ready_hostio_noop env bin hf, hv]

/-- A found 32-byte global read with a declared length of at least 32
writes the stored word's 32 bytes. -/
theorem get_bytes32_found (env : WasmEnv) (bin : BootIn) (sp : GoStack)
    (hf : env.forks = false) (g : Bytes32) (hlen : ¬ sp.read_u64 2 < 32)
    (hg : env.large_globals[sp.read_u64 0 % 4294967296]? = some g) :
    get_global_state_bytes32 env bin sp =
      .ok (env, [.write_slice (sp.read_u64 1) (g.take 32)]) := by
  simp [get_global_state_bytes32, ready_hostio_noop env bin hf, hg, hlen]

/-- C7: for a slot index within bounds of both vectors, `set` followed by
`get` on the same slot returns exactly the value written, for both the
u64 kind and the 32-byte kind (with declared lengths 32 on the set and a
destination buffer of at least 32 on the get). -/
theorem set_then_get_roundtrip (env : WasmEnv) (bin : BootIn)
    (sp1 sp2 : GoStack) (hf : env.forks = false)
    (hidx : sp2.read_u64 0 = sp1.read_u64 0)
    (hsm : sp1.read_u64 0 % 2 ^ 32 < env.small_globals.length)
    (hlg : sp1.read_u64 0 % 2 ^ 32 < env.large_globals.length)
    (hlen1 : sp1.read_u64 2 = 32) (hlen2 : 32 ≤ sp2.read_u64 2)
    (hsrc : sp1.read_u64 1 + 32 ≤ sp1.memory_size) :
    (∃ env2, set_global_state_u64 env bin sp1 = .ok (env2, []) ∧
      get_global_state_u64 env2 bin sp2 =
        .ok (env2, [.write_u64 1 (sp1.read_u64 1)])) ∧
    (∃ env3, set_global_state_bytes32 env bin sp1 = .ok (env3, []) ∧
      get_global_state_bytes32 env3 bin sp2 =
        .ok (env3, [.write_slice (sp2.read_u64 1)
          (sp1.read_slice (sp1.read_u64 1) 32)])) := by
  have hp : (2 : Nat) ^ 32 = 4294967296 := by norm_num
  rw [hp] at hsm hlg
  have hi : sp2.read_u64 0 % 4294967296 = sp1.read_u64 0 % 4294967296 := by
    rw [hidx]
  have hlen2x : ¬ sp2.read_u64 2 < 32 := Nat.not_lt.mpr hlen2
  constructor
  · refine ⟨{ env with small_globals := env.small_globals.set (sp1.read_u64 0 % 4294967296) (sp1.read_u64 1) }, ?_, ?_⟩
    · simp [set_global_state_u64, ready_hostio_noop env bin hf,
        List.getElem?_eq_getElem hsm]
    · exact get_u64_found { env with small_globals := env.small_globals.set (sp1.read_u64 0 % 4294967296) (sp1.read_u64 1) } bin sp2 hf (sp1.read_u64 1) (by simp only [hi]; exact List.getElem?_set_self hsm)
  · have hsl : (sp1.read_slice (sp1.read_u64 1) 32).length = 32 := by
      simp only [GoStack.read_slice, List.length_take, List.length_drop]
      simp only [GoStack.memory_size] at hsrc
      omega
    refine ⟨{ env with large_globals := env.large_globals.set (sp1.read_u64 0 % 4294967296) (sp1.read_slice (sp1.read_u64 1) 32) }, ?_, ?_⟩
    · simp [set_global_state_bytes32, ready_hostio_noop env bin hf, hlen1,
        List.getElem?_eq_getElem hlg]
    · have hget := get_bytes32_found { env with large_globals := env.large_globals.set (sp1.read_u64 0 % 4294967296) (sp1.read_slice (sp1.read_u64 1) 32) } bin sp2 hf (sp1.read_slice (sp1.read_u64 1) 32) hlen2x (by simp only [hi]; exact List.getElem?_set_self hlg)
      rw [List.take_of_length_le (le_of_eq hsl)] at hget
      exact hget

/-- Witness for C7 at a concrete state: slot 1 of two-element vectors,
u64 value 77 and the 32 bytes at source pointer 77 of a 109-byte memory. -/
theorem set_then_get_roundtrip_witness :
    envW7.forks = false ∧ spW7b.read_u64 0 = spW7a.read_u64 0 ∧
    spW7a.read_u64 0 % 2 ^ 32 < envW7.small_globals.length ∧
    spW7a.read_u64 0 % 2 ^ 32 < envW7.large_globals.length ∧
    spW7a.read_u64 2 = 32 ∧ 32 ≤ spW7b.read_u64 2 ∧
    spW7a.read_u64 1 + 32 ≤ spW7a.memory_size ∧
    ((∃ env2, set_global_state_u64 envW7 binNull spW7a = .ok (env2, []) ∧
      get_global_state_u64 env2 binNull spW7b =
        .ok (env2, [.write_u64 1 (spW7a.read_u64 1)])) ∧
    (∃ env3, set_global_state_bytes32 envW7 binNull spW7a = .ok (env3, []) ∧
      get_global_state_bytes32 env3 binNull spW7b =
        .ok (env3, [.write_slice (spW7b.read_u64 1)
          (spW7a.read_slice (spW7a.read_u64 1) 32)]))) :=
  ⟨by decide, by decide, by decide, by decide, by decide, by decide, by decide,
    set_then_get_roundtrip envW7 binNull spW7a spW7b (by decide) (by decide)
      (by decide) (by decide) (by decide) (by decide) (by decide)⟩

/-- C8: a successful bootstrap whose sequencer stream carries
continuation flags 1,1,0 with two messages and whose delayed stream
carries flags 1,0 with one message leaves the sequencer map with exactly
the two contiguous keys ip and ip+1 (in stream order) and the delayed map
with exactly the key dp; both maps were rebuilt from empty, so every
other key is absent. -/
theorem bootstrap_ingestion_shape (env : WasmEnv) (port : String)
    (ip pwm dp : Nat) (bh sr : Bytes32) (m1 m2 d1 : Msg)
    (rest : List WireItem) (hf : env.forks = true) :
    ∃ env2,
      ready_hostio env
        { stdin := [StdinEvent.line port ForkRes.child]
          connectErr := none
          socket := [WireItem.w64 ip, WireItem.w64 pwm, WireItem.wbytes32 bh,
            WireItem.wbytes32 sr, WireItem.w64 dp, WireItem.w8 1,
            WireItem.wbytes m1, WireItem.w8 1, WireItem.wbytes m2,
            WireItem.w8 0, WireItem.w8 1, WireItem.wbytes d1,
            WireItem.w8 0] ++ rest } = .ok env2 ∧
      (∀ k, inboxGet env2.sequencer_messages k =
        if k = ip then some m1 else if k = ip + 1 then some m2 else none) ∧
      (∀ k, inboxGet env2.delayed_messages k =
        if k = dp then some d1 else none) ∧
      env2.small_globals = [ip, pwm] ∧
      env2.large_globals = [bh, sr] ∧
      env2.forks = false := by
  refine ⟨{ env with
    forks := false
    small_globals := [ip, pwm]
    large_globals := [bh, sr]
    sequencer_messages := inboxInsert (inboxInsert [] ip m1) (ip + 1) m2
    delayed_messages := inboxInsert [] dp d1 }, ?_, ?_, ?_, rfl, rfl, rfl⟩
  · rw [ready_hostio, if_neg (by simp [hf])]
    rfl
  · intro k
    rw [inboxGet_insert, inboxGet_insert]
    by_cases h1 : k = ip
    · by_cases h2 : k = ip + 1
      · omega
      · simp [h1, h2]
    · by_cases h2 : k = ip + 1
      · simp [h1, h2]
      · simp [h1, h2, inboxGet]
  · intro k
    rw [inboxGet_insert]
    by_cases h1 : k = dp
    · simp [h1]
    · simp [h1, inboxGet]

/-- Witness for C8 at a fully concrete bootstrap input. -/
theorem bootstrap_ingestion_shape_witness :
    envPre.forks = true ∧
    (∃ env2,
      ready_hostio envPre
        { stdin := [StdinEvent.line "90" ForkRes.child]
          connectErr := none
          socket := [WireItem.w64 10, WireItem.w64 3,
            WireItem.wbytes32 (List.replicate 32 1),
            WireItem.wbytes32 (List.replicate 32 2), WireItem.w64 7,
            WireItem.w8 1, WireItem.wbytes [5, 6], WireItem.w8 1,
            WireItem.wbytes [8], WireItem.w8 0, WireItem.w8 1,
            WireItem.wbytes [9, 9, 9], WireItem.w8 0] ++ [] } = .ok env2 ∧
      (∀ k, inboxGet env2.sequencer_messages k =
        if k = 10 then some [5, 6] else if k = 10 + 1 then some [8] else none) ∧
      (∀ k, inboxGet env2.delayed_messages k =
        if k = 7 then some [9, 9, 9] else none) ∧
      env2.small_globals = [10, 3] ∧
      env2.large_globals = [List.replicate 32 1, List.replicate 32 2] ∧
      env2.forks = false) :=
  ⟨by decide, bootstrap_ingestion_shape envPre "90" 10 3 7
    (List.replicate 32 1) (List.replicate 32 2) [5, 6] [8] [9, 9, 9] []
    (by decide)⟩

/-- C9 (amended): with both declared lengths 32, `resolvePreImage` on a
hash absent from the oracle fails fatally with MissingPreimage with no
hypothesis on the offset; on a known hash every u32-representable offset
succeeds, leaving the state untouched, writing the clamped chunk
`min 32 (length - offset)` of the blob plus its count — in particular at
every offset `32 * k` it writes exactly the k-th chunk, and joining the
chunks at offsets 0, 32, 64, ... reassembles the blob exactly — while an
offset of `2 ^ 32` or more fails fatally with the BadOffset diagnostic
even though the hash is known. -/
theorem resolve_preimage_serves_chunks (env : WasmEnv) (sp : GoStack)
    (h1 : sp.read_u64 1 = 32) (h5 : sp.read_u64 5 = 32) :
    (preimagesGet env.preimages (sp.read_slice (sp.read_u64 0) 32) = none →
      resolve_preimage env sp = .error (.hostio
        (missingPreimageText (sp.read_slice (sp.read_u64 0) 32)
          "wavmio.resolvePreImage"))) ∧
    (∀ blob,
      preimagesGet env.preimages (sp.read_slice (sp.read_u64 0) 32) = some blob →
      (sp.read_u64 3 < 2 ^ 32 →
        resolve_preimage env sp = .ok (env,
          [.write_slice (sp.read_u64 4)
              ((blob.drop (sp.read_u64 3)).take (min 32 (blob.length - sp.read_u64 3))),
            .write_u64 7 (min 32 (blob.length - sp.read_u64 3))])) ∧
      (2 ^ 32 ≤ sp.read_u64 3 →
        resolve_preimage env sp = .error (.hostio
          (badOffsetText (sp.read_u64 3) "wavmio.resolvePreImage"))) ∧
      (∀ (sp2 : GoStack) (k : Nat), sp2.read_u64 1 = 32 → sp2.read_u64 5 = 32 →
        sp2.read_u64 3 = 32 * k → 32 * k < 2 ^ 32 →
        sp2.read_slice (sp2.read_u64 0) 32 = sp.read_slice (sp.read_u64 0) 32 →
        resolve_preimage env sp2 = .ok (env,
          [.write_slice (sp2.read_u64 4)
              ((blob.drop (32 * k)).take (min 32 (blob.length - 32 * k))),
            .write_u64 7 (min 32 (blob.length - 32 * k))])) ∧
      (∀ n, blob.length ≤ 32 * n → preimageChunksJoined blob n = blob)) := by
  refine ⟨fun habs => resolve_missing env sp h1 h5 habs, fun blob hpre => ?_⟩
  refine ⟨(resolve_known env sp blob h1 h5 hpre).1,
    (resolve_known env sp blob h1 h5 hpre).2, ?_,
    fun n hn => chunksJoined_reassembles blob n hn⟩
  intro sp2 k h1b h5b hoffb hklt hhash
  have hpre2 : preimagesGet env.preimages (sp2.read_slice (sp2.read_u64 0) 32) =
      some blob := by rw [hhash]; exact hpre
  have := (resolve_known env sp2 blob h1b h5b hpre2).1 (by rw [hoffb]; exact hklt)
  rw [hoffb] at this
  exact this

/-- Witness for the amended C9 at a concrete oracle holding the 3-byte
blob `[1, 2, 3]` under the all-zero hash. -/
theorem resolve_preimage_serves_chunks_witness :
    spW9.read_u64 1 = 32 ∧ spW9.read_u64 5 = 32 ∧
    ((preimagesGet envW9.preimages (spW9.read_slice (spW9.read_u64 0) 32) = none →
      resolve_preimage envW9 spW9 = .error (.hostio
        (missingPreimageText (spW9.read_slice (spW9.read_u64 0) 32)
          "wavmio.resolvePreImage"))) ∧
    (∀ blob,
      preimagesGet envW9.preimages (spW9.read_slice (spW9.read_u64 0) 32) = some blob →
      (spW9.read_u64 3 < 2 ^ 32 →
        resolve_preimage envW9 spW9 = .ok (envW9,
          [.write_slice (spW9.read_u64 4)
              ((blob.drop (spW9.read_u64 3)).take (min 32 (blob.length - spW9.read_u64 3))),
            .write_u64 7 (min 32 (blob.length - spW9.read_u64 3))])) ∧
      (2 ^ 32 ≤ spW9.read_u64 3 →
        resolve_preimage envW9 spW9 = .error (.hostio
          (badOffsetText (spW9.read_u64 3) "wavmio.resolvePreImage"))) ∧
      (∀ (sp2 : GoStack) (k : Nat), sp2.read_u64 1 = 32 → sp2.read_u64 5 = 32 →
        sp2.read_u64 3 = 32 * k → 32 * k < 2 ^ 32 →
        sp2.read_slice (sp2.read_u64 0) 32 = spW9.read_slice (spW9.read_u64 0) 32 →
        resolve_preimage envW9 sp2 = .ok (envW9,
          [.write_slice (sp2.read_u64 4)
              ((blob.drop (32 * k)).take (min 32 (blob.length - 32 * k))),
            .write_u64 7 (min 32 (blob.length - 32 * k))])) ∧
      (∀ n, blob.length ≤ 32 * n → preimageChunksJoined blob n = blob))) :=
  ⟨by decide, by decide, resolve_preimage_serves_chunks envW9 spW9
    (by decide) (by decide)⟩

/-- Counterexample to C9 as stated: for the known all-zero hash (blob
`[1, 2, 3]`) with both declared lengths 32, the offset `2 ^ 32` does not
succeed with the claimed `min 32 (length - offset) = 0` bytes: the call
fails fatally with the BadOffset diagnostic because the offset does not
fit in u32. -/
theorem resolve_known_hash_huge_offset_is_fatal :
    preimagesGet envW9.preimages (spC9.read_slice (spC9.read_u64 0) 32) =
      some [1, 2, 3] ∧
    spC9.read_u64 1 = 32 ∧ spC9.read_u64 5 = 32 ∧
    min 32 (List.length [1, 2, 3] - spC9.read_u64 3) = 0 ∧
    resolve_preimage envW9 spC9 =
      .error (.hostio (badOffsetText (2 ^ 32) "wavmio.resolvePreImage")) :=
  ⟨by decide, by decide, by decide, by decide, rfl⟩

/-- C10: `resolvePreImage` performs no destination bounds check: with
both declared lengths 32 and a known hash it can never produce the
UnknownMessageType (out-of-range destination pointer) diagnostic, and for
every destination pointer and every u32-representable offset it proceeds
straight to the guest-memory write — no hypothesis constrains the
destination pointer against the memory size.  By contrast the inbox
reader body fails fatally with exactly that diagnostic whenever the
destination pointer plus 32 exceeds guest memory. -/
theorem resolve_preimage_skips_dest_bounds (env : WasmEnv) (sp : GoStack)
    (blob : Msg) (h1 : sp.read_u64 1 = 32) (h5 : sp.read_u64 5 = 32)
    (hknown : preimagesGet env.preimages (sp.read_slice (sp.read_u64 0) 32) = some blob) :
    (∀ msg, resolve_preimage env sp ≠ .error (.hostio (unknownMessageTypeText msg))) ∧
    (sp.read_u64 3 < 2 ^ 32 →
      resolve_preimage env sp = .ok (env,
        [.write_slice (sp.read_u64 4)
            ((blob.drop (sp.read_u64 3)).take (min 32 (blob.length - sp.read_u64 3))),
          .write_u64 7 (min 32 (blob.length - sp.read_u64 3))])) ∧
    (∀ (sp2 : GoStack) (inbox : Inbox) (nm : String) (msg2 : Msg),
      sp2.read_u64 3 = 32 → inboxGet inbox (sp2.read_u64 0) = some msg2 →
      sp2.memory_size < sp2.read_u64 2 + 32 →
      inbox_message_impl sp2 env inbox nm =
        .error (.hostio (unknownMessageTypeText nm))) := by
  obtain ⟨hok, herr⟩ := resolve_known env sp blob h1 h5 hknown
  refine ⟨?_, hok, fun sp2 inbox nm msg2 ha hb hc =>
    inbox_impl_oob_ptr sp2 env inbox nm msg2 ha hc hb⟩
  intro msg hcontra
  rcases Nat.lt_or_ge (sp.read_u64 3) (2 ^ 32) with hoff | hoff
  · rw [hok hoff] at hcontra
    cases hcontra
  · rw [herr hoff] at hcontra
    have := badOffsetText_ne_unknownText (sp.read_u64 3)
      "wavmio.resolvePreImage" msg
    simp only [Except.error.injEq, Escape.hostio.injEq] at hcontra
    exact this hcontra

/-- Witness for C10: a known hash with destination pointer 999, far
outside the 32-byte guest memory. -/
theorem resolve_preimage_skips_dest_bounds_witness :
    spW9.read_u64 1 = 32 ∧ spW9.read_u64 5 = 32 ∧
    preimagesGet envW9.preimages (spW9.read_slice (spW9.read_u64 0) 32) =
      some [1, 2, 3] ∧
    ((∀ msg, resolve_preimage envW9 spW9 ≠
      .error (.hostio (unknownMessageTypeText msg))) ∧
    (spW9.read_u64 3 < 2 ^ 32 →
      resolve_preimage envW9 spW9 = .ok (envW9,
        [.write_slice (spW9.read_u64 4)
            ((List.drop (spW9.read_u64 3) [1, 2, 3]).take
              (min 32 (List.length [1, 2, 3] - spW9.read_u64 3))),
          .write_u64 7 (min 32 (List.length [1, 2, 3] - spW9.read_u64 3))])) ∧
    (∀ (sp2 : GoStack) (inbox : Inbox) (nm : String) (msg2 : Msg),
      sp2.read_u64 3 = 32 → inboxGet inbox (sp2.read_u64 0) = some msg2 →
      sp2.memory_size < sp2.read_u64 2 + 32 →
      inbox_message_impl sp2 envW9 inbox nm =
        .error (.hostio (unknownMessageTypeText nm)))) :=
  ⟨by decide, by decide, by decide,
    resolve_preimage_skips_dest_bounds envW9 spW9 [1, 2, 3]
      (by decide) (by decide) (by decide)⟩
